import Mathlib

/-!
Shallow embedding of the `tamr-unify-client` mastering-project and
attribute-configuration client code.

Every operation of the client is a thin translation from a method call to an
HTTP exchange.  We embed each operation as a pure Lean function that returns
its result together with the list of HTTP requests it issued, so that claims
of the form "performs zero network calls" or "issues exactly one POST" become
statements about that request list.  The NDJSON streaming generator of
`MasteringProject._cluster_versions` is embedded as a small-step state machine
whose steps emit events (POST-with-connection-acquire, yield, connection
release), so that laziness and release-exactly-once claims become statements
about event traces.

Collaborator classes that are not part of the four embedded source files
(`Client`, `Dataset`, the generic `Resource` base, `DatasetCollection.by_name`,
`Project.unified_dataset`, the JSON codec) are modelled from the spec; each
such definition carries a doc comment starting with `Modelled from the spec:`.
-/

namespace TamrUnifyClient

/-- Minimal JSON value type.  JSON (de)serialization primitives are external
collaborators; this type is only used to carry decoded bodies opaquely and to
read the one field (`relativeId`) the embedded code consults. -/
inductive Json where
  | null : Json
  | bool (b : Bool) : Json
  | num (n : Int) : Json
  | str (s : String) : Json
  | arr (elems : List Json) : Json
  | obj (fields : List (String × Json)) : Json
deriving Repr

/-- Look up a top-level field of a JSON object (first occurrence). -/
def Json.getField : Json → String → Option Json
  | .obj fields, key => (fields.find? (fun kv => kv.1 == key)).map (fun kv => kv.2)
  | _, _ => none

/-- Read a top-level string field of a JSON object. -/
def Json.getStr (j : Json) (key : String) : Option String :=
  match j.getField key with
  | some (.str s) => some s
  | _ => none

/-- One HTTP request issued through the shared client.  `getDatasetByName`
stands for the exact-name dataset lookup, `postJson` for a POST with a JSON
payload, `postData` for a POST with a raw string payload. -/
inductive Req where
  | getDatasetByName (name : String) : Req
  | postJson (path : String) (body : Json) : Req
  | postData (path : String) (body : String) : Req
deriving Repr

/-- Error taxonomy of the spec.  `notSupported` embeds the Python
`NotImplementedError` raised by collections lacking external-id support. -/
inductive Err where
  | notFound : Err
  | notSupported (msg : String) : Err
deriving Repr, DecidableEq

/-- Server-side record of a dataset.  Only the canonical `name` and the
`relativeId` are ever consulted by the embedded code; the remaining fields of
the wire object are opaque and passed through unmodified, so they are not
represented. -/
structure DatasetJson where
  name : String
  relativeId : String
deriving Repr, DecidableEq

/-- Modelled from the spec: the `Dataset` resource wrapper, a pair of an
optional cached body and its relative path (the path is the sole stable
identity; `body = none` is the unresolved state). -/
structure Dataset where
  body : Option DatasetJson
  relativePath : String
deriving Repr, DecidableEq

/-- Modelled from the spec: `Dataset.from_json(client, resource_json, alias)` —
wraps an already-fetched body at the given alias path, no network call. -/
def Dataset.from_json (resourceJson : Option DatasetJson) (aliasPath : String) : Dataset :=
  ⟨resourceJson, aliasPath⟩

/-- Modelled from the spec: the `MachineLearningModel` resource wrapper. -/
structure MachineLearningModel where
  body : Option Json
  relativePath : String
deriving Repr

/-- Modelled from the spec: the `BinningModel` resource wrapper;
`BinningModel.from_json(client, resource_json, alias)` wraps the given body at
the given path with no network call. -/
structure BinningModel where
  body : Json
  relativePath : String
deriving Repr

/-- The environment a `MasteringProject` instance operates in: the project's
`api_path`, the project body's `unifiedDatasetName` field, and the server's
dataset collection (used by the exact-name lookups). -/
structure ProjectEnv where
  apiPath : String
  unifiedDatasetName : String
  datasets : List DatasetJson
deriving Repr, DecidableEq

/-- Modelled from the spec: `client.datasets.by_name(name)` — an exact-name
lookup against the dataset collection, issuing one lookup request; returns the
matching dataset resolved at its own relative path, or fails with `NotFound`
when no dataset with that exact name exists (no retry, no alternate name). -/
def datasetByName (env : ProjectEnv) (name : String) : Except Err Dataset × List Req :=
  match env.datasets.find? (fun d => d.name == name) with
  | some d => (.ok ⟨some d, d.relativeId⟩, [.getDatasetByName name])
  | none => (.error .notFound, [.getDatasetByName name])

/-- Modelled from the spec: `Project.unified_dataset()` — resolves the
project's unified dataset by its canonical name (one lookup request).  The
embedded mastering-project code only reads the resulting resource's `name`
field, so the resolved record is returned directly. -/
def unified_dataset (env : ProjectEnv) : Except Err DatasetJson × List Req :=
  match env.datasets.find? (fun d => d.name == env.unifiedDatasetName) with
  | some d => (.ok d, [.getDatasetByName env.unifiedDatasetName])
  | none => (.error .notFound, [.getDatasetByName env.unifiedDatasetName])

namespace MasteringProject

/-- `MasteringProject.pairs`: returns `Dataset(client, None, api_path + "/recordPairs")`
— an unresolved wrapper, no network call. -/
def pairs (env : ProjectEnv) : Dataset × List Req :=
  (⟨none, env.apiPath ++ "/recordPairs"⟩, [])

/-- `MasteringProject.pair_matching_model`: returns
`MachineLearningModel(client, None, api_path + "/recordPairsWithPredictions/model")`
— an unresolved wrapper, no network call. -/
def pair_matching_model (env : ProjectEnv) : MachineLearningModel × List Req :=
  (⟨none, env.apiPath ++ "/recordPairsWithPredictions/model"⟩, [])

/-- `MasteringProject.high_impact_pairs`: returns
`Dataset(client, None, api_path + "/highImpactPairs")` — an unresolved wrapper,
no network call. -/
def high_impact_pairs (env : ProjectEnv) : Dataset × List Req :=
  (⟨none, env.apiPath ++ "/highImpactPairs"⟩, [])

/-- `MasteringProject.record_clusters`: returns
`Dataset(client, None, api_path + "/recordClusters")` — an unresolved wrapper,
no network call. -/
def record_clusters (env : ProjectEnv) : Dataset × List Req :=
  (⟨none, env.apiPath ++ "/recordClusters"⟩, [])

/-- `MasteringProject.published_clusters`: fetches the unified dataset, derives
the sibling name by appending `"_dedup_published_clusters"`, looks the sibling
up by exact name, and wraps the sibling's body at
`api_path + "/publishedClusters"`. -/
def published_clusters (env : ProjectEnv) : Except Err Dataset × List Req :=
  match unified_dataset env with
  | (.error e, r1) => (.error e, r1)
  | (.ok ud, r1) =>
    match datasetByName env (ud.name ++ "_dedup_published_clusters") with
    | (.error e, r2) => (.error e, r1 ++ r2)
    | (.ok canonical, r2) =>
      (.ok (Dataset.from_json canonical.body (env.apiPath ++ "/publishedClusters")),
        r1 ++ r2)

/-- `MasteringProject.published_cluster_ids`: fetches the unified dataset,
derives the sibling name by appending `"_dedup_all_persistent_ids"`, looks the
sibling up by exact name, and wraps its body at
`api_path + "/allPublishedClusterIds"`. -/
def published_cluster_ids (env : ProjectEnv) : Except Err Dataset × List Req :=
  match unified_dataset env with
  | (.error e, r1) => (.error e, r1)
  | (.ok ud, r1) =>
    match datasetByName env (ud.name ++ "_dedup_all_persistent_ids") with
    | (.error e, r2) => (.error e, r1 ++ r2)
    | (.ok dataset, r2) =>
      (.ok (Dataset.from_json dataset.body (env.apiPath ++ "/allPublishedClusterIds")),
        r1 ++ r2)

/-- `MasteringProject.published_cluster_stats`: fetches the unified dataset,
derives the sibling name by appending `"_dedup_published_cluster_stats"`, looks
the sibling up by exact name, and wraps its body at
`api_path + "/publishedClusterStats"`. -/
def published_cluster_stats (env : ProjectEnv) : Except Err Dataset × List Req :=
  match unified_dataset env with
  | (.error e, r1) => (.error e, r1)
  | (.ok ud, r1) =>
    match datasetByName env (ud.name ++ "_dedup_published_cluster_stats") with
    | (.error e, r2) => (.error e, r1 ++ r2)
    | (.ok dataset, r2) =>
      (.ok (Dataset.from_json dataset.body (env.apiPath ++ "/publishedClusterStats")),
        r1 ++ r2)

/-- `MasteringProject.record_clusters_with_data`: fetches the unified dataset,
derives the name by appending `"_dedup_clusters_with_data"`, and returns the
result of the exact-name lookup directly (at the dataset's own path, no
re-wrapping). -/
def record_clusters_with_data (env : ProjectEnv) : Except Err Dataset × List Req :=
  match unified_dataset env with
  | (.error e, r1) => (.error e, r1)
  | (.ok ud, r1) =>
    match datasetByName env (ud.name ++ "_dedup_clusters_with_data") with
    | (res, r2) => (res, r1 ++ r2)

/-- `MasteringProject.published_clusters_with_data`: fetches the unified
dataset, derives the name by appending `"_dedup_published_clusters_with_data"`,
and returns the result of the exact-name lookup directly (at the dataset's own
path, no re-wrapping). -/
def published_clusters_with_data (env : ProjectEnv) : Except Err Dataset × List Req :=
  match unified_dataset env with
  | (.error e, r1) => (.error e, r1)
  | (.ok ud, r1) =>
    match datasetByName env (ud.name ++ "_dedup_published_clusters_with_data") with
    | (res, r2) => (res, r1 ++ r2)

/-- `MasteringProject.binning_model`: hard-codes the body
`obj [("relativeId", api_path + "/binningModel")]` at that same path, with no
network call ("Cannot get this resource and so we hard code"). -/
def binning_model (env : ProjectEnv) : BinningModel × List Req :=
  (⟨Json.obj [("relativeId", Json.str (env.apiPath ++ "/binningModel"))],
    env.apiPath ++ "/binningModel"⟩, [])

end MasteringProject


/-- The external collaborators of the NDJSON streaming generator: the JSON
codec (`json.dumps` applied to one identifier string, `json.loads` applied to
one response line) and the server's behaviour (the NDJSON lines it answers a
POST with).  All three are outside this repository, so they are parameters of
the model. -/
structure StreamEnv where
  dumps : String → String
  loads : String → Json
  respond : String → String → List String

/-- Modelled from the spec: `PublishedCluster(data)` — a typed wrapper around
one decoded NDJSON line. -/
structure PublishedCluster where
  data_ : Json

/-- Modelled from the spec: `RecordPublishedCluster(data)` — a typed wrapper
around one decoded NDJSON line. -/
structure RecordPublishedCluster where
  data_ : Json

/-- Observable events of one run of the `_cluster_versions` generator:
`post` is the single POST (which also acquires the underlying HTTP
connection), `yielded` is one element handed to the consumer, `release` is the
connection release performed when control leaves the `with` block. -/
inductive GenEvent (C : Type) where
  | post (endpoint : String) (body : String) : GenEvent C
  | yielded (c : C) : GenEvent C
  | release : GenEvent C

/-- Phase of the generator object: `created` — the generator was returned but
its body has not started executing (Python generator semantics: the body runs
only when the first element is requested); `running remaining` — inside the
`with` block, connection open, `remaining` response lines not yet yielded;
`finished` — the body has exited (the `with` block was left). -/
inductive GenPhase where
  | created (ids : List String) : GenPhase
  | running (remaining : List String) : GenPhase
  | finished : GenPhase
deriving Repr, DecidableEq

/-- The generator object returned by `MasteringProject._cluster_versions`:
it captures the `cluster_class` constructor, the endpoint, and its phase. -/
structure ClusterVersionGen (C : Type) where
  cluster_class : Json → C
  endpoint : String
  phase : GenPhase

/-- Result of advancing the generator by one `next` call: the new generator
state, the events that occurred during the call, and the yielded element
(`none` means `StopIteration`: the body ran to completion). -/
structure StepResult (C : Type) where
  gen : ClusterVersionGen C
  events : List (GenEvent C)
  value : Option C

/-- One `next` call on the generator, following Python semantics of the source:
the first call runs the body up to the first `yield` — it joins the
JSON-encoded ids with newlines, sends the POST (entering the `with` block
acquires the connection), and either yields the first response line's decoded
object or, when the response is empty, leaves the `with` block (releasing the
connection) and stops.  Later calls yield the next line, or leave the `with`
block and stop when no lines remain. -/
def ClusterVersionGen.next {C : Type} (env : StreamEnv) (g : ClusterVersionGen C) :
    StepResult C :=
  match g.phase with
  | .created ids =>
    let string_ids := String.intercalate "\n" (ids.map env.dumps)
    match env.respond g.endpoint string_ids with
    | [] =>
      ⟨⟨g.cluster_class, g.endpoint, .finished⟩,
        [.post g.endpoint string_ids, .release], none⟩
    | line :: rest =>
      let c := g.cluster_class (env.loads line)
      ⟨⟨g.cluster_class, g.endpoint, .running rest⟩,
        [.post g.endpoint string_ids, .yielded c], some c⟩
  | .running remaining =>
    match remaining with
    | [] => ⟨⟨g.cluster_class, g.endpoint, .finished⟩, [.release], none⟩
    | line :: rest =>
      let c := g.cluster_class (env.loads line)
      ⟨⟨g.cluster_class, g.endpoint, .running rest⟩, [.yielded c], some c⟩
  | .finished => ⟨g, [], none⟩

/-- Closing the generator (explicit `close()`, garbage collection of an
abandoned generator, or an exception thrown into it at a `yield` point): if the
body is suspended inside the `with` block, the injected `GeneratorExit` (or
exception) unwinds through the block's exit handler, which releases the
connection; if the body never started or already finished, no connection
exists and nothing happens. -/
def ClusterVersionGen.close {C : Type} (g : ClusterVersionGen C) :
    ClusterVersionGen C × List (GenEvent C) :=
  match g.phase with
  | .created _ => (⟨g.cluster_class, g.endpoint, .finished⟩, [])
  | .running _ => (⟨g.cluster_class, g.endpoint, .finished⟩, [.release])
  | .finished => (g, [])

/-- A consumer that requests up to `pulls` elements and then disposes of the
generator: it stops at `StopIteration` (full consumption) or, when its budget
runs out first, abandons the generator — which closes it (early abandonment
and an exception raised during iteration take the same unwinding path through
the `with` block).  Returns the full event trace. -/
def drive {C : Type} (env : StreamEnv) (g : ClusterVersionGen C) : Nat → List (GenEvent C)
  | 0 => g.close.2
  | n + 1 =>
    let s := g.next env
    match s.value with
    | none => s.events
    | some _ => s.events ++ drive env s.gen n

/-- Number of connection releases in a trace. -/
def countRelease {C : Type} (evs : List (GenEvent C)) : Nat :=
  evs.countP (fun e => match e with | .release => true | _ => false)

/-- The POSTs of a trace, as endpoint–body pairs, in order. -/
def postsOf {C : Type} (evs : List (GenEvent C)) : List (String × String) :=
  evs.filterMap (fun e => match e with | .post p b => some (p, b) | _ => none)

/-- The yielded elements of a trace, in order. -/
def yieldsOf {C : Type} (evs : List (GenEvent C)) : List C :=
  evs.filterMap (fun e => match e with | .yielded c => some c | _ => none)

namespace MasteringProject

/-- `MasteringProject._cluster_versions(cluster_class, ids, endpoint)`: being a
generator function, the call itself only builds the generator object; nothing
of the body (not even the id join) runs until the first element is requested. -/
def cluster_versions {C : Type} (cluster_class : Json → C) (ids : List String)
    (endpoint : String) : ClusterVersionGen C :=
  ⟨cluster_class, endpoint, .created ids⟩

/-- `MasteringProject.published_cluster_versions(cluster_ids)`: computes the
endpoint `api_path + "/publishedClusterVersions"` and returns the generator;
the empty request list records that the call itself performs no network
call. -/
def published_cluster_versions (env : ProjectEnv) (cluster_ids : List String) :
    ClusterVersionGen PublishedCluster × List Req :=
  (cluster_versions PublishedCluster.mk cluster_ids
    (env.apiPath ++ "/publishedClusterVersions"), [])

/-- `MasteringProject.record_published_cluster_versions(record_ids)`: computes
the endpoint `api_path + "/recordPublishedClusterVersions"` and returns the
generator; the empty request list records that the call itself performs no
network call. -/
def record_published_cluster_versions (env : ProjectEnv) (record_ids : List String) :
    ClusterVersionGen RecordPublishedCluster × List Req :=
  (cluster_versions RecordPublishedCluster.mk record_ids
    (env.apiPath ++ "/recordPublishedClusterVersions"), [])

end MasteringProject

/-- Modelled from the spec: the `AttributeConfiguration` resource — a decoded
body plus an optional alias path. -/
structure AttributeConfiguration where
  data_ : Json
  aliasPath : Option String

/-- Modelled from the spec: `AttributeConfiguration.from_json(client, data,
api_path)` — wraps the decoded body; `api_path` defaults to absent when the
caller passes only the body. -/
def AttributeConfiguration.from_json (body : Json) (apiPath : Option String) :
    AttributeConfiguration :=
  ⟨body, apiPath⟩

/-- Modelled from the spec: `Resource.relative_id` — the alias path when one
was given at construction, otherwise the body's `relativeId` field (scenario B
of the spec: the created resource's `relative_id` equals the returned object's
`relativeId`). -/
def AttributeConfiguration.relative_id (a : AttributeConfiguration) : Option String :=
  match a.aliasPath with
  | some p => some p
  | none => a.data_.getStr "relativeId"

/-- The attribute-configuration collection: all its embedded methods need is
its `api_path`. -/
structure AttributeConfigurationCollection where
  apiPath : String
deriving Repr, DecidableEq

namespace AttributeConfigurationCollection

/-- `AttributeConfigurationCollection.by_external_id(external_id)`: raises
`NotImplementedError` (the spec's `NotSupported`) unconditionally — the
argument is never inspected and no request is issued. -/
def by_external_id (coll : AttributeConfigurationCollection) (external_id : String) :
    Except Err AttributeConfiguration × List Req :=
  (.error (.notSupported "AttributeConfiguration des not support external_id"), [])

/-- `AttributeConfigurationCollection.create(creation_spec)`: one POST of the
creation spec to the collection's `api_path`; the response body (a single JSON
object, or the error `.successful()` raises) is a parameter of the model.  On
success the decoded object is wrapped with no alias path. -/
def create (coll : AttributeConfigurationCollection) (creation_spec : Json)
    (response : Except Err Json) : Except Err AttributeConfiguration × List Req :=
  match response with
  | .error e => (.error e, [.postJson coll.apiPath creation_spec])
  | .ok body =>
    (.ok (AttributeConfiguration.from_json body none), [.postJson coll.apiPath creation_spec])

end AttributeConfigurationCollection


/-! ### Claim theorems -/

/-- Claim C1: for every mastering project whose unified dataset has canonical
name `N`, `published_clusters()` first fetches the parent's name, then looks up
the sibling dataset by the exact derived name `N ++ "_dedup_published_clusters"`,
and returns that dataset's body wrapped at the path
`api_path ++ "/publishedClusters"`. -/
theorem published_clusters_derived_name_and_alias
    (env : ProjectEnv) (u c : DatasetJson)
    (hu : env.datasets.find? (fun d => d.name == env.unifiedDatasetName) = some u)
    (hc : env.datasets.find?
      (fun d => d.name == u.name ++ "_dedup_published_clusters") = some c) :
    MasteringProject.published_clusters env =
      (.ok ⟨some c, env.apiPath ++ "/publishedClusters"⟩,
       [.getDatasetByName env.unifiedDatasetName,
        .getDatasetByName (u.name ++ "_dedup_published_clusters")]) := by
  simp [MasteringProject.published_clusters, unified_dataset, datasetByName, hu, hc,
    Dataset.from_json]

/-- Witness for C1: the spec's scenario A — unified dataset named
`"project 1 unified dataset"`, sibling named
`"project 1 unified dataset_dedup_published_clusters"`. -/
theorem published_clusters_derived_name_and_alias_witness :
    (ProjectEnv.datasets ⟨"projects/1", "project 1 unified dataset",
        [⟨"project 1 unified dataset", "datasets/10"⟩,
         ⟨"project 1 unified dataset_dedup_published_clusters", "datasets/11"⟩]⟩).find?
      (fun d => d.name == "project 1 unified dataset") =
        some ⟨"project 1 unified dataset", "datasets/10"⟩ ∧
    MasteringProject.published_clusters
      ⟨"projects/1", "project 1 unified dataset",
        [⟨"project 1 unified dataset", "datasets/10"⟩,
         ⟨"project 1 unified dataset_dedup_published_clusters", "datasets/11"⟩]⟩ =
      (.ok ⟨some ⟨"project 1 unified dataset_dedup_published_clusters", "datasets/11"⟩,
            "projects/1" ++ "/publishedClusters"⟩,
       [.getDatasetByName "project 1 unified dataset",
        .getDatasetByName ("project 1 unified dataset" ++ "_dedup_published_clusters")]) :=
  ⟨by decide,
   published_clusters_derived_name_and_alias
     ⟨"projects/1", "project 1 unified dataset",
        [⟨"project 1 unified dataset", "datasets/10"⟩,
         ⟨"project 1 unified dataset_dedup_published_clusters", "datasets/11"⟩]⟩
     ⟨"project 1 unified dataset", "datasets/10"⟩
     ⟨"project 1 unified dataset_dedup_published_clusters", "datasets/11"⟩
     (by decide) (by decide)⟩

/-- Claim C2: for every input `external_id`,
`AttributeConfigurationCollection.by_external_id` raises `NotSupported`
(the Python `NotImplementedError`) unconditionally, issuing no request. -/
theorem by_external_id_not_supported_no_request
    (coll : AttributeConfigurationCollection) (eid : String) :
    AttributeConfigurationCollection.by_external_id coll eid =
      (.error (.notSupported "AttributeConfiguration des not support external_id"),
       []) :=
  rfl

/-- Claim C4: `create(spec)` issues exactly one POST of `spec` to the
collection's `api_path`, and the returned resolved resource's `relative_id`
equals the response object's `relativeId` field. -/
theorem create_single_post_relative_id
    (coll : AttributeConfigurationCollection) (spec body : Json) (rid : String)
    (h : body.getStr "relativeId" = some rid) :
    (AttributeConfigurationCollection.create coll spec (.ok body)).2 =
      [.postJson coll.apiPath spec] ∧
    ∃ a, (AttributeConfigurationCollection.create coll spec (.ok body)).1 = .ok a ∧
      a.relative_id = some rid := by
  refine ⟨rfl, AttributeConfiguration.from_json body none, rfl, ?_⟩
  simpa [AttributeConfiguration.from_json, AttributeConfiguration.relative_id] using h

/-- Witness for C4: the unit test's creation response, whose `relativeId` is
`"projects/1/attributeConfigurations/35"`. -/
theorem create_single_post_relative_id_witness :
    (Json.obj [("relativeId", Json.str "projects/1/attributeConfigurations/35"),
               ("attributeName", Json.str "Tester")]).getStr "relativeId" =
      some "projects/1/attributeConfigurations/35" ∧
    ((AttributeConfigurationCollection.create ⟨"projects/1/attributeConfigurations"⟩
        (Json.obj [("attributeName", Json.str "Tester")])
        (.ok (Json.obj [("relativeId", Json.str "projects/1/attributeConfigurations/35"),
                        ("attributeName", Json.str "Tester")]))).2 =
      [.postJson "projects/1/attributeConfigurations"
        (Json.obj [("attributeName", Json.str "Tester")])] ∧
     ∃ a, (AttributeConfigurationCollection.create ⟨"projects/1/attributeConfigurations"⟩
        (Json.obj [("attributeName", Json.str "Tester")])
        (.ok (Json.obj [("relativeId", Json.str "projects/1/attributeConfigurations/35"),
                        ("attributeName", Json.str "Tester")]))).1 = .ok a ∧
      a.relative_id = some "projects/1/attributeConfigurations/35") :=
  ⟨by simp [Json.getStr, Json.getField],
   create_single_post_relative_id ⟨"projects/1/attributeConfigurations"⟩
     (Json.obj [("attributeName", Json.str "Tester")])
     (Json.obj [("relativeId", Json.str "projects/1/attributeConfigurations/35"),
                ("attributeName", Json.str "Tester")])
     "projects/1/attributeConfigurations/35"
     (by simp [Json.getStr, Json.getField])⟩

/-- Claim C6: `pairs()`, `high_impact_pairs()`, `record_clusters()`, and
`pair_matching_model()` each perform zero network calls and return an
unresolved wrapper whose relative path is exactly the project's `api_path`
concatenated with the fixed suffix. -/
theorem unresolved_wrappers_zero_requests_exact_paths (env : ProjectEnv) :
    (MasteringProject.pairs env).2 = [] ∧
    (MasteringProject.pairs env).1 = ⟨none, env.apiPath ++ "/recordPairs"⟩ ∧
    (MasteringProject.high_impact_pairs env).2 = [] ∧
    (MasteringProject.high_impact_pairs env).1 =
      ⟨none, env.apiPath ++ "/highImpactPairs"⟩ ∧
    (MasteringProject.record_clusters env).2 = [] ∧
    (MasteringProject.record_clusters env).1 =
      ⟨none, env.apiPath ++ "/recordClusters"⟩ ∧
    (MasteringProject.pair_matching_model env).2 = [] ∧
    (MasteringProject.pair_matching_model env).1 =
      ⟨none, env.apiPath ++ "/recordPairsWithPredictions/model"⟩ :=
  ⟨rfl, rfl, rfl, rfl, rfl, rfl, rfl, rfl⟩

/-- Claim C7: when the unified dataset resolves but no dataset exists with the
derived name, `published_clusters()`, `published_cluster_ids()`, and
`published_cluster_stats()` each fail with `NotFound` propagated unmodified,
their request trace being exactly the parent fetch followed by the single
failed derived-name lookup — no retry, no alternate name. -/
theorem derived_name_not_found_propagates
    (env : ProjectEnv) (u : DatasetJson)
    (hu : env.datasets.find? (fun d => d.name == env.unifiedDatasetName) = some u)
    (h1 : env.datasets.find?
      (fun d => d.name == u.name ++ "_dedup_published_clusters") = none)
    (h2 : env.datasets.find?
      (fun d => d.name == u.name ++ "_dedup_all_persistent_ids") = none)
    (h3 : env.datasets.find?
      (fun d => d.name == u.name ++ "_dedup_published_cluster_stats") = none) :
    MasteringProject.published_clusters env =
      (.error .notFound,
       [.getDatasetByName env.unifiedDatasetName,
        .getDatasetByName (u.name ++ "_dedup_published_clusters")]) ∧
    MasteringProject.published_cluster_ids env =
      (.error .notFound,
       [.getDatasetByName env.unifiedDatasetName,
        .getDatasetByName (u.name ++ "_dedup_all_persistent_ids")]) ∧
    MasteringProject.published_cluster_stats env =
      (.error .notFound,
       [.getDatasetByName env.unifiedDatasetName,
        .getDatasetByName (u.name ++ "_dedup_published_cluster_stats")]) := by
  refine ⟨?_, ?_, ?_⟩
  · simp [MasteringProject.published_clusters, unified_dataset, datasetByName, hu, h1]
  · simp [MasteringProject.published_cluster_ids, unified_dataset, datasetByName, hu, h2]
  · simp [MasteringProject.published_cluster_stats, unified_dataset, datasetByName, hu, h3]

/-- Witness for C7: a server holding only the unified dataset, none of the
derived-name siblings. -/
theorem derived_name_not_found_propagates_witness :
    (ProjectEnv.datasets ⟨"projects/1", "ud",
        [⟨"ud", "datasets/10"⟩]⟩).find? (fun d => d.name == "ud") =
      some ⟨"ud", "datasets/10"⟩ ∧
    MasteringProject.published_clusters ⟨"projects/1", "ud", [⟨"ud", "datasets/10"⟩]⟩ =
      (.error .notFound,
       [.getDatasetByName "ud", .getDatasetByName ("ud" ++ "_dedup_published_clusters")]) ∧
    MasteringProject.published_cluster_ids ⟨"projects/1", "ud", [⟨"ud", "datasets/10"⟩]⟩ =
      (.error .notFound,
       [.getDatasetByName "ud", .getDatasetByName ("ud" ++ "_dedup_all_persistent_ids")]) ∧
    MasteringProject.published_cluster_stats ⟨"projects/1", "ud", [⟨"ud", "datasets/10"⟩]⟩ =
      (.error .notFound,
       [.getDatasetByName "ud",
        .getDatasetByName ("ud" ++ "_dedup_published_cluster_stats")]) :=
  ⟨by decide,
   derived_name_not_found_propagates ⟨"projects/1", "ud", [⟨"ud", "datasets/10"⟩]⟩
     ⟨"ud", "datasets/10"⟩ (by decide) (by decide) (by decide) (by decide)⟩

/-- Claim C8: `binning_model()` performs zero network calls and returns a
`BinningModel` built from the hard-coded body
`obj [("relativeId", api_path ++ "/binningModel")]` at that same path. -/
theorem binning_model_hardcoded_no_request (env : ProjectEnv) :
    (MasteringProject.binning_model env).2 = [] ∧
    (MasteringProject.binning_model env).1.body =
      Json.obj [("relativeId", Json.str (env.apiPath ++ "/binningModel"))] ∧
    (MasteringProject.binning_model env).1.relativePath =
      env.apiPath ++ "/binningModel" :=
  ⟨rfl, rfl, rfl⟩

/-- Claim C10: `record_clusters_with_data()` and
`published_clusters_with_data()` return the canonical dataset resolved by the
derived name at the dataset's own relative path, with no `api_path`-derived
re-wrapping. -/
theorem with_data_no_rewrap
    (env : ProjectEnv) (u d1 d2 : DatasetJson)
    (hu : env.datasets.find? (fun d => d.name == env.unifiedDatasetName) = some u)
    (h1 : env.datasets.find?
      (fun d => d.name == u.name ++ "_dedup_clusters_with_data") = some d1)
    (h2 : env.datasets.find?
      (fun d => d.name == u.name ++ "_dedup_published_clusters_with_data") = some d2) :
    MasteringProject.record_clusters_with_data env =
      (.ok ⟨some d1, d1.relativeId⟩,
       [.getDatasetByName env.unifiedDatasetName,
        .getDatasetByName (u.name ++ "_dedup_clusters_with_data")]) ∧
    MasteringProject.published_clusters_with_data env =
      (.ok ⟨some d2, d2.relativeId⟩,
       [.getDatasetByName env.unifiedDatasetName,
        .getDatasetByName (u.name ++ "_dedup_published_clusters_with_data")]) := by
  constructor
  · simp [MasteringProject.record_clusters_with_data, unified_dataset, datasetByName,
      hu, h1]
  · simp [MasteringProject.published_clusters_with_data, unified_dataset, datasetByName,
      hu, h2]

/-- Witness for C10: a server holding the unified dataset and both
with-data siblings at their own paths. -/
theorem with_data_no_rewrap_witness :
    (ProjectEnv.datasets ⟨"projects/1", "ud",
        [⟨"ud", "datasets/10"⟩,
         ⟨"ud_dedup_clusters_with_data", "datasets/12"⟩,
         ⟨"ud_dedup_published_clusters_with_data", "datasets/13"⟩]⟩).find?
      (fun d => d.name == "ud") = some ⟨"ud", "datasets/10"⟩ ∧
    MasteringProject.record_clusters_with_data
      ⟨"projects/1", "ud",
        [⟨"ud", "datasets/10"⟩,
         ⟨"ud_dedup_clusters_with_data", "datasets/12"⟩,
         ⟨"ud_dedup_published_clusters_with_data", "datasets/13"⟩]⟩ =
      (.ok ⟨some ⟨"ud_dedup_clusters_with_data", "datasets/12"⟩, "datasets/12"⟩,
       [.getDatasetByName "ud", .getDatasetByName ("ud" ++ "_dedup_clusters_with_data")]) ∧
    MasteringProject.published_clusters_with_data
      ⟨"projects/1", "ud",
        [⟨"ud", "datasets/10"⟩,
         ⟨"ud_dedup_clusters_with_data", "datasets/12"⟩,
         ⟨"ud_dedup_published_clusters_with_data", "datasets/13"⟩]⟩ =
      (.ok ⟨some ⟨"ud_dedup_published_clusters_with_data", "datasets/13"⟩, "datasets/13"⟩,
       [.getDatasetByName "ud",
        .getDatasetByName ("ud" ++ "_dedup_published_clusters_with_data")]) :=
  ⟨by decide,
   (with_data_no_rewrap
     ⟨"projects/1", "ud",
        [⟨"ud", "datasets/10"⟩,
         ⟨"ud_dedup_clusters_with_data", "datasets/12"⟩,
         ⟨"ud_dedup_published_clusters_with_data", "datasets/13"⟩]⟩
     ⟨"ud", "datasets/10"⟩
     ⟨"ud_dedup_clusters_with_data", "datasets/12"⟩
     ⟨"ud_dedup_published_clusters_with_data", "datasets/13"⟩
     (by decide) (by decide) (by decide)).1,
   (with_data_no_rewrap
     ⟨"projects/1", "ud",
        [⟨"ud", "datasets/10"⟩,
         ⟨"ud_dedup_clusters_with_data", "datasets/12"⟩,
         ⟨"ud_dedup_published_clusters_with_data", "datasets/13"⟩]⟩
     ⟨"ud", "datasets/10"⟩
     ⟨"ud_dedup_clusters_with_data", "datasets/12"⟩
     ⟨"ud_dedup_published_clusters_with_data", "datasets/13"⟩
     (by decide) (by decide) (by decide)).2⟩


/-- A `post` event contributes its endpoint-body pair to `postsOf`. -/
theorem postsOf_post_cons {C : Type} (p b : String) (evs : List (GenEvent C)) :
    postsOf (.post p b :: evs) = (p, b) :: postsOf evs := by
  simp [postsOf]

/-- A `yielded` event contributes nothing to `postsOf`. -/
theorem postsOf_yielded_cons {C : Type} (c : C) (evs : List (GenEvent C)) :
    postsOf (.yielded c :: evs) = postsOf evs := by
  simp [postsOf]

/-- A `yielded` event contributes its element to `yieldsOf`. -/
theorem yieldsOf_yielded_cons {C : Type} (c : C) (evs : List (GenEvent C)) :
    yieldsOf (.yielded c :: evs) = c :: yieldsOf evs := by
  simp [yieldsOf]

/-- A `post` event contributes nothing to `yieldsOf`. -/
theorem yieldsOf_post_cons {C : Type} (p b : String) (evs : List (GenEvent C)) :
    yieldsOf (.post p b :: evs) = yieldsOf evs := by
  simp [yieldsOf]

/-- A `yielded` event contributes nothing to `countRelease`. -/
theorem countRelease_yielded_cons {C : Type} (c : C) (evs : List (GenEvent C)) :
    countRelease (.yielded c :: evs) = countRelease evs := by
  simp [countRelease]

/-- A `post` event contributes nothing to `countRelease`. -/
theorem countRelease_post_cons {C : Type} (p b : String) (evs : List (GenEvent C)) :
    countRelease (.post p b :: evs) = countRelease evs := by
  simp [countRelease]

/-- Abandoning the generator while it is suspended inside the `with` block
releases the connection. -/
theorem drive_running_zero {C : Type} (env : StreamEnv) (cc : Json → C)
    (ep : String) (rem : List String) :
    drive env ⟨cc, ep, .running rem⟩ 0 = [.release] :=
  rfl

/-- Pulling from the suspended generator with no lines left leaves the `with`
block, releasing the connection. -/
theorem drive_running_nil_succ {C : Type} (env : StreamEnv) (cc : Json → C)
    (ep : String) (n : Nat) :
    drive env ⟨cc, ep, .running []⟩ (n + 1) = [.release] :=
  rfl

/-- Pulling from the suspended generator with a line left yields that line's
decoded object and continues. -/
theorem drive_running_cons_succ {C : Type} (env : StreamEnv) (cc : Json → C)
    (ep : String) (l : String) (rest : List String) (n : Nat) :
    drive env ⟨cc, ep, .running (l :: rest)⟩ (n + 1) =
      .yielded (cc (env.loads l)) :: drive env ⟨cc, ep, .running rest⟩ n :=
  rfl

/-- The first pull when the server answers no lines: the POST is sent and the
`with` block is immediately left again. -/
theorem drive_created_respond_nil {C : Type} (env : StreamEnv) (cc : Json → C)
    (ep : String) (ids : List String) (n : Nat)
    (hr : env.respond ep (String.intercalate "\n" (ids.map env.dumps)) = []) :
    drive env ⟨cc, ep, .created ids⟩ (n + 1) =
      [.post ep (String.intercalate "\n" (ids.map env.dumps)), .release] := by
  have hnext : ClusterVersionGen.next env ⟨cc, ep, .created ids⟩ =
      ⟨⟨cc, ep, .finished⟩,
       [.post ep (String.intercalate "\n" (ids.map env.dumps)), .release], none⟩ := by
    simp [ClusterVersionGen.next, hr]
  simp [drive, hnext]

/-- The first pull when the server answers at least one line: the POST is sent
and the first line's decoded object is yielded. -/
theorem drive_created_respond_cons {C : Type} (env : StreamEnv) (cc : Json → C)
    (ep : String) (ids : List String) (l : String) (rest : List String) (n : Nat)
    (hr : env.respond ep (String.intercalate "\n" (ids.map env.dumps)) = l :: rest) :
    drive env ⟨cc, ep, .created ids⟩ (n + 1) =
      .post ep (String.intercalate "\n" (ids.map env.dumps)) ::
      .yielded (cc (env.loads l)) :: drive env ⟨cc, ep, .running rest⟩ n := by
  have hnext : ClusterVersionGen.next env ⟨cc, ep, .created ids⟩ =
      ⟨⟨cc, ep, .running rest⟩,
       [.post ep (String.intercalate "\n" (ids.map env.dumps)),
        .yielded (cc (env.loads l))], some (cc (env.loads l))⟩ := by
    simp [ClusterVersionGen.next, hr]
  simp [drive, hnext]

/-- Once the generator body is suspended inside the `with` block, any
continuation of the consumer — exhausting the stream, or abandoning it at any
point (which closes the generator) — releases the connection exactly once. -/
theorem drive_running_countRelease {C : Type} (env : StreamEnv) (cc : Json → C)
    (ep : String) (pulls : Nat) :
    ∀ rem : List String, countRelease (drive env ⟨cc, ep, .running rem⟩ pulls) = 1 := by
  induction pulls with
  | zero =>
    intro rem
    rw [drive_running_zero]
    simp [countRelease]
  | succ n ih =>
    intro rem
    cases rem with
    | nil =>
      rw [drive_running_nil_succ]
      simp [countRelease]
    | cons l rest =>
      rw [drive_running_cons_succ, countRelease_yielded_cons, ih rest]

/-- The suspended generator body never issues another POST: the single POST
happens before the first `yield`. -/
theorem drive_running_postsOf {C : Type} (env : StreamEnv) (cc : Json → C)
    (ep : String) (pulls : Nat) :
    ∀ rem : List String, postsOf (drive env ⟨cc, ep, .running rem⟩ pulls) = [] := by
  induction pulls with
  | zero =>
    intro rem
    rw [drive_running_zero]
    simp [postsOf]
  | succ n ih =>
    intro rem
    cases rem with
    | nil =>
      rw [drive_running_nil_succ]
      simp [postsOf]
    | cons l rest =>
      rw [drive_running_cons_succ, postsOf_yielded_cons, ih rest]

/-- With enough pulls, the suspended generator yields one element per
remaining response line, in line order. -/
theorem drive_running_yieldsOf {C : Type} (env : StreamEnv) (cc : Json → C)
    (ep : String) :
    ∀ (rem : List String) (pulls : Nat), rem.length < pulls →
      yieldsOf (drive env ⟨cc, ep, .running rem⟩ pulls) =
        rem.map (fun line => cc (env.loads line)) := by
  intro rem
  induction rem with
  | nil =>
    intro pulls h
    match pulls, h with
    | n + 1, _ =>
      rw [drive_running_nil_succ]
      simp [yieldsOf]
  | cons l rest ih =>
    intro pulls h
    match pulls, h with
    | n + 1, h =>
      rw [drive_running_cons_succ, yieldsOf_yielded_cons,
        ih n (by simpa using Nat.lt_of_succ_lt_succ h)]
      simp

/-- Claim C5: once iteration of the `_cluster_versions` NDJSON stream has
begun (at least one element was requested), the underlying connection is
released exactly once — whether the consumer exhausts the stream, abandons it
early (closing the generator), or an exception unwinds it (the same path
through the `with` block as closing). -/
theorem cluster_versions_release_exactly_once {C : Type} (env : StreamEnv)
    (cluster_class : Json → C) (ids : List String) (endpoint : String)
    (pulls : Nat) (h : 1 ≤ pulls) :
    countRelease
      (drive env (MasteringProject.cluster_versions cluster_class ids endpoint) pulls)
      = 1 := by
  obtain ⟨n, rfl⟩ : ∃ n, pulls = n + 1 := ⟨pulls - 1, by omega⟩
  simp only [MasteringProject.cluster_versions]
  cases hr : env.respond endpoint (String.intercalate "\n" (ids.map env.dumps)) with
  | nil =>
    rw [drive_created_respond_nil env cluster_class endpoint ids n hr]
    simp [countRelease]
  | cons l rest =>
    rw [drive_created_respond_cons env cluster_class endpoint ids l rest n hr,
      countRelease_post_cons, countRelease_yielded_cons,
      drive_running_countRelease env cluster_class endpoint n rest]

/-- Witness for C5: a three-line response abandoned after two pulls still
releases the connection exactly once. -/
theorem cluster_versions_release_exactly_once_witness :
    1 ≤ 2 ∧
    countRelease
      (drive ⟨fun s => "\"" ++ s ++ "\"", Json.str, fun _ _ => ["a", "b", "c"]⟩
        (MasteringProject.cluster_versions PublishedCluster.mk ["id1"]
          "projects/1/publishedClusterVersions") 2) = 1 :=
  ⟨by decide,
   cluster_versions_release_exactly_once
     ⟨fun s => "\"" ++ s ++ "\"", Json.str, fun _ _ => ["a", "b", "c"]⟩
     PublishedCluster.mk ["id1"] "projects/1/publishedClusterVersions" 2 (by decide)⟩

/-- Claim C3: fully consuming `published_cluster_versions(ids)` issues exactly
one POST, to `api_path ++ "/publishedClusterVersions"`, whose body is the
JSON-encoded identifiers joined by newlines, and yields one `PublishedCluster`
per response line, built from that line's decoded JSON, in line order. -/
theorem cluster_versions_single_post_yields_in_order
    (env : StreamEnv) (proj : ProjectEnv) (ids : List String) (body : String)
    (lines : List String)
    (hbody : body = String.intercalate "\n" (ids.map env.dumps))
    (hlines : lines = env.respond (proj.apiPath ++ "/publishedClusterVersions") body) :
    postsOf (drive env (MasteringProject.published_cluster_versions proj ids).1
        (lines.length + 1)) =
      [(proj.apiPath ++ "/publishedClusterVersions", body)] ∧
    yieldsOf (drive env (MasteringProject.published_cluster_versions proj ids).1
        (lines.length + 1)) =
      lines.map (fun line => PublishedCluster.mk (env.loads line)) := by
  subst hbody
  subst hlines
  simp only [MasteringProject.published_cluster_versions,
    MasteringProject.cluster_versions]
  cases hr : env.respond (proj.apiPath ++ "/publishedClusterVersions")
      (String.intercalate "\n" (ids.map env.dumps)) with
  | nil =>
    simp only [hr, List.length_nil, List.map_nil]
    rw [drive_created_respond_nil env PublishedCluster.mk
      (proj.apiPath ++ "/publishedClusterVersions") ids 0 hr]
    constructor
    · simp [postsOf]
    · simp [yieldsOf]
  | cons l rest =>
    simp only [hr, List.length_cons, List.map_cons]
    rw [drive_created_respond_cons env PublishedCluster.mk
      (proj.apiPath ++ "/publishedClusterVersions") ids l rest (rest.length + 1) hr]
    constructor
    · rw [postsOf_post_cons, postsOf_yielded_cons,
        drive_running_postsOf env PublishedCluster.mk
          (proj.apiPath ++ "/publishedClusterVersions") (rest.length + 1) rest]
    · rw [yieldsOf_post_cons, yieldsOf_yielded_cons,
        drive_running_yieldsOf env PublishedCluster.mk
          (proj.apiPath ++ "/publishedClusterVersions") rest (rest.length + 1)
          (Nat.lt_succ_self _)]

/-- Witness for C3: the spec's scenario C — two identifiers, a two-line
response, with a concrete codec and server. -/
theorem cluster_versions_single_post_yields_in_order_witness :
    ("\"id1\"\n\"id2\"" : String) =
      String.intercalate "\n"
        (List.map
          (StreamEnv.dumps ⟨fun s => "\"" ++ s ++ "\"", Json.str,
            fun _ _ => ["l1", "l2"]⟩)
          ["id1", "id2"]) ∧
    (["l1", "l2"] : List String) =
      StreamEnv.respond ⟨fun s => "\"" ++ s ++ "\"", Json.str,
          fun _ _ => ["l1", "l2"]⟩
        (ProjectEnv.apiPath ⟨"projects/1", "ud", []⟩ ++ "/publishedClusterVersions")
        "\"id1\"\n\"id2\"" ∧
    (postsOf (drive ⟨fun s => "\"" ++ s ++ "\"", Json.str, fun _ _ => ["l1", "l2"]⟩
        (MasteringProject.published_cluster_versions ⟨"projects/1", "ud", []⟩
          ["id1", "id2"]).1 ((["l1", "l2"] : List String).length + 1)) =
      [(ProjectEnv.apiPath ⟨"projects/1", "ud", []⟩ ++ "/publishedClusterVersions",
        "\"id1\"\n\"id2\"")] ∧
     yieldsOf (drive ⟨fun s => "\"" ++ s ++ "\"", Json.str, fun _ _ => ["l1", "l2"]⟩
        (MasteringProject.published_cluster_versions ⟨"projects/1", "ud", []⟩
          ["id1", "id2"]).1 ((["l1", "l2"] : List String).length + 1)) =
      List.map (fun line => PublishedCluster.mk
        (StreamEnv.loads ⟨fun s => "\"" ++ s ++ "\"", Json.str,
          fun _ _ => ["l1", "l2"]⟩ line)) ["l1", "l2"]) :=
  ⟨by rfl, by rfl,
   cluster_versions_single_post_yields_in_order
     ⟨fun s => "\"" ++ s ++ "\"", Json.str, fun _ _ => ["l1", "l2"]⟩
     ⟨"projects/1", "ud", []⟩ ["id1", "id2"] "\"id1\"\n\"id2\"" ["l1", "l2"]
     (by rfl) (by rfl)⟩

/-- Claim C9: calling `published_cluster_versions` or
`record_published_cluster_versions` issues no HTTP request at call time (the
call returns a generator and an empty request list, and disposing of the
generator unconsumed produces no POST); the single POST happens as the first
event of the first pull. -/
theorem cluster_versions_lazy_post_on_first_pull
    (env : StreamEnv) (proj : ProjectEnv) (ids : List String) :
    (MasteringProject.published_cluster_versions proj ids).2 = [] ∧
    (MasteringProject.record_published_cluster_versions proj ids).2 = [] ∧
    postsOf (drive env (MasteringProject.published_cluster_versions proj ids).1 0)
      = [] ∧
    postsOf (drive env (MasteringProject.record_published_cluster_versions proj ids).1 0)
      = [] ∧
    (ClusterVersionGen.next env
        (MasteringProject.published_cluster_versions proj ids).1).events.head? =
      some (.post (proj.apiPath ++ "/publishedClusterVersions")
        (String.intercalate "\n" (ids.map env.dumps))) ∧
    (ClusterVersionGen.next env
        (MasteringProject.record_published_cluster_versions proj ids).1).events.head? =
      some (.post (proj.apiPath ++ "/recordPublishedClusterVersions")
        (String.intercalate "\n" (ids.map env.dumps))) := by
  refine ⟨rfl, rfl, rfl, rfl, ?_, ?_⟩
  · cases hr : env.respond (proj.apiPath ++ "/publishedClusterVersions")
        (String.intercalate "\n" (ids.map env.dumps)) <;>
      simp [MasteringProject.published_cluster_versions,
        MasteringProject.cluster_versions, ClusterVersionGen.next, hr]
  · cases hr : env.respond (proj.apiPath ++ "/recordPublishedClusterVersions")
        (String.intercalate "\n" (ids.map env.dumps)) <;>
      simp [MasteringProject.record_published_cluster_versions,
        MasteringProject.cluster_versions, ClusterVersionGen.next, hr]

end TamrUnifyClient
